import Mathlib

/-!
Verification of the finance-sim Monte Carlo simulation engine.

Shallow embedding of the engine: `src/config_loader.py` (configuration data
model with its pydantic defaults), `src/simulation/components.py`
(seasonality rule, transport analytical model, variable-expense sampler,
periodic-expense aggregator) and `src/model.py` (orchestrator).

Python floats are modelled as exact rationals wherever the computation is
rational, and as real numbers where logarithms, exponentials and square
roots appear.  The numpy random generator seeded in `ExpenseModel.__init__`
is a deterministic function of the seed; we model the values it (and the
library samplers driven by it) produce during one process as a
`GenBehavior`: two runs with the same seed observe the same `GenBehavior`,
so reproducibility questions become questions about the remaining inputs
(notably the wall-clock calendar month read by `get_seasonality_multipliers`,
which we thread explicitly as the `month` argument).
-/

namespace FinanceSim

/-! ## Configuration data model (src/config_loader.py)

Each structure mirrors one pydantic `BaseModel`, with the same field names
and the same default values. -/

/-- `TransportConfig` of src/config_loader.py. -/
structure TransportConfig where
  bike_days_per_month : ℚ := 2
  hitch_days_per_month : ℚ := 8
  hitch_two_way_frac : ℚ := 3/5
  rare_hitch_rapido_prob : ℚ := 1/20
  office_oneway_km : ℚ := 16
  gym_oneway_km : ℚ := 1
  bike_kmpl : ℚ := 45
  petrol_price_rs_per_l : ℚ := 219/2
  metro_one_way_rs : ℚ := 50
  rare_rapido_rs : ℚ := 120

/-- `MembershipsConfig` of src/config_loader.py. -/
structure MembershipsConfig where
  gym_yearly : ℚ := 0

/-- `SubscriptionsConfig` of src/config_loader.py. -/
structure SubscriptionsConfig where
  internet_monthly : ℚ := 0
  mobile_90_days : ℚ := 0
  google_one_monthly : ℚ := 0
  spotify_monthly : ℚ := 0
  cloud_backup_yearly : ℚ := 0
  antivirus_yearly : ℚ := 0
  news_monthly : ℚ := 0
  other_apps_monthly : ℚ := 0

/-- `HouseholdConfig` of src/config_loader.py. -/
structure HouseholdConfig where
  rent_contribution_monthly : ℚ := 0
  society_maintenance_monthly : ℚ := 0
  groceries_monthly : ℚ := 0
  utilities_monthly : ℚ := 0
  emergency_repair_fund_monthly : ℚ := 0
  appliance_replacement_fund_monthly : ℚ := 0
  wfh_equipment_fund_monthly : ℚ := 0
  seasonal_clothing_yearly : ℚ := 0

/-- `FamilySupportConfig` of src/config_loader.py. -/
structure FamilySupportConfig where
  child_elder_care_monthly : ℚ := 0
  caregiver_wages_monthly : ℚ := 0
  school_tuition_monthly : ℚ := 0
  education_fund_monthly : ℚ := 0

/-- `MedicalConfig` of src/config_loader.py. -/
structure MedicalConfig where
  consumables_monthly : ℚ := 0
  specialist_consultations_yearly : ℚ := 0
  dental_procedures_yearly : ℚ := 0
  optical_costs_yearly : ℚ := 0
  long_term_meds_monthly : ℚ := 0
  emergency_buffer_yearly : ℚ := 0
  health_checkup_yearly : ℚ := 0

/-- `InsuranceAndLoansConfig` of src/config_loader.py. -/
structure InsuranceAndLoansConfig where
  life_insurance_yearly : ℚ := 0
  hospitalization_copay_yearly : ℚ := 0
  loan_emi_monthly : ℚ := 0
  credit_card_payment_monthly : ℚ := 0

/-- `ProfessionalAndFinancialConfig` of src/config_loader.py.  Note the
default `bike_maintenance_mean_monthly = 0.0` (relevant to claim C10). -/
structure ProfessionalAndFinancialConfig where
  income_tax_provision_yearly : ℚ := 0
  bank_charges_yearly : ℚ := 0
  investment_platform_fees_yearly : ℚ := 0
  advisory_fees_yearly : ℚ := 0
  legal_services_yearly : ℚ := 0
  professional_license_yearly : ℚ := 0
  tax_filing_assistance_yearly : ℚ := 0
  bike_maintenance_mean_monthly : ℚ := 0
  bike_maintenance_sigma : ℚ := 1

/-- `MiscellaneousConfig` of src/config_loader.py. -/
structure MiscellaneousConfig where
  gifts_and_occasions_yearly : ℚ := 0
  donations_monthly : ℚ := 0
  pet_care_monthly : ℚ := 0
  inflation_buffer_monthly : ℚ := 0

/-- `HobbiesConfig` of src/config_loader.py. -/
structure HobbiesConfig where
  cricket_days_per_month : ℚ := 2
  cricket_cost_min : ℚ := 300
  cricket_cost_max : ℚ := 500

/-- `PeriodicExpensesConfig` of src/config_loader.py. -/
structure PeriodicExpensesConfig where
  memberships : MembershipsConfig := {}
  subscriptions : SubscriptionsConfig := {}
  household : HouseholdConfig := {}
  family_support : FamilySupportConfig := {}
  medical : MedicalConfig := {}
  insurance_and_loans : InsuranceAndLoansConfig := {}
  professional_and_financial : ProfessionalAndFinancialConfig := {}
  miscellaneous : MiscellaneousConfig := {}
  hobbies : HobbiesConfig := {}

/-- `SimulationConfig` of src/config_loader.py (`mc_trials` is a positive
int in the pydantic schema; the row-count claims hold for any `ℕ` value, so
the positivity constraint is not baked into the type). -/
structure SimulationConfig where
  mc_trials : ℕ := 200000
  random_seed : ℤ := 42

/-- `TimeConfig` of src/config_loader.py. -/
structure TimeConfig where
  days_in_month : ℚ := 487/16
  workdays_per_month : ℕ := 22

/-- `FinancialsConfig` of src/config_loader.py (consumed only by the
reporting collaborator; carried for completeness of the data model). -/
structure FinancialsConfig where
  monthly_investable_amount : ℚ := 0
  active_investment_profile : String := "Balanced"

/-- `VariableExpensesConfig` of src/config_loader.py.  The Python model
stores `means` and `stds` as string-keyed dictionaries of floats; the engine
reads only the keys `"food"` and `"social"`, so a total function models the
lookups the code performs. -/
structure VariableExpensesConfig where
  seasonality : List (String × ℚ) := []
  means : String → ℚ
  stds : String → ℚ
  correlation_matrix : List (List ℚ)

/-- `Config`, the root configuration model of src/config_loader.py. -/
structure Config where
  simulation : SimulationConfig := {}
  time : TimeConfig := {}
  financials : FinancialsConfig := {}
  transport : TransportConfig := {}
  variable_expenses : VariableExpensesConfig
  periodic_expenses : PeriodicExpensesConfig := {}
  investment_profiles : List (String × List (String × ℚ)) := []

/-! ## The random generator and the library samplers

`ExpenseModel.__init__` (src/model.py line 16) seeds one
`np.random.Generator` from `config.simulation.random_seed`; the generator
and every library sampling routine driven by it are deterministic functions
of that seed.  A `GenBehavior` records the values they yield during one
process, in consumption order: the standard-normal variates, the
uniform-[0,1) variates, and the linear factor numpy's
`multivariate_normal` derives (deterministically) from a covariance matrix.
Two runs seeded identically observe the same `GenBehavior`. -/

/-- The seed-determined behaviour of the shared generator and of the
numpy/scipy samplers it drives. -/
structure GenBehavior where
  normal : ℕ → ℝ
  unif : ℕ → ℚ
  mvnFactor : (Fin 3 → Fin 3 → ℝ) → Fin 3 → Fin 3 → ℝ

/-- A pandas DataFrame of numeric columns, as the components build them:
an insertion-ordered list of (column name, column values). -/
abbrev Table := List (String × List ℝ)

/-- A registered expense component (`ExpenseModel.ExpenseFunc`): it reads
the configuration and the shared generator (modelled as the generator
behaviour plus the position already consumed, together with the ambient
calendar month) and returns its DataFrame plus the advanced position. -/
abbrev Component := Config → GenBehavior → ℕ → ℕ → Table × ℕ

/-- Column lookup in a table (empty column for an absent name). -/
def getCol (t : Table) (k : String) : List ℝ :=
  ((t.find? (fun c => c.1 = k)).map Prod.snd).getD []

/-- Python `d[k] = v` on a string-keyed dict whose key is already present:
the value is replaced, the key keeps its insertion position. -/
def dictSet (d : List (String × ℚ)) (k : String) (v : ℚ) : List (String × ℚ) :=
  d.map (fun p => if p.1 = k then (k, v) else p)

/-- Python `d.get(k, dflt)`. -/
def dictGet (d : List (String × ℚ)) (k : String) (dflt : ℚ) : ℚ :=
  ((d.find? (fun p => p.1 = k)).map Prod.snd).getD dflt

/-! ## Seasonality rule (src/simulation/components.py lines 8-38)

The Python function reads `datetime.datetime.now().month`; the month is the
only datum it consumes, so it is embedded as an explicit argument. -/

/-- `get_seasonality_multipliers`: default multiplier 1.0 for social,
household and food; during the festival months (October and November) the
social multiplier becomes 1.3 and the household multiplier 1.1.  The
peak-summer branch (month 5) is an explicit no-op in the code. -/
def get_seasonality_multipliers (month : ℕ) : List (String × ℚ) :=
  let multipliers : List (String × ℚ) := [("social", 1), ("household", 1), ("food", 1)]
  if month = 10 ∨ month = 11 then
    dictSet (dictSet multipliers "social" (13/10)) "household" (11/10)
  else
    multipliers

/-! ## Transport analytical model (src/simulation/components.py lines 41-84) -/

/-- `p_workday = workdays_per_month / days_in_month`. -/
def p_workday (cfg : Config) : ℚ :=
  (cfg.time.workdays_per_month : ℚ) / cfg.time.days_in_month

/-- The five commute-choice probabilities, in the code's order:
bike, hitch-two-way, hitch-one-way-non-combo, rare-rapido, metro
(the last derived as 1 minus the sum of the first four). -/
def transport_probs (cfg : Config) : Fin 5 → ℚ :=
  let t := cfg.transport
  let p_bike := t.bike_days_per_month / cfg.time.days_in_month
  let p_hitch_any := t.hitch_days_per_month / cfg.time.days_in_month
  let p_hitch_two_way := p_hitch_any * t.hitch_two_way_frac
  let p_rare := t.rare_hitch_rapido_prob
  let p_one_way_non_combo := p_hitch_any - p_hitch_two_way - p_rare
  let p_metro := 1 - (p_bike + p_hitch_two_way + p_one_way_non_combo + p_rare)
  ![p_bike, p_hitch_two_way, p_one_way_non_combo, p_rare, p_metro]

/-- The per-choice expected workday cost vector `daily_costs`
(lines 60-77): the gym kilometres are broadcast onto every choice, the
office kilometres only onto the bike choice; fuel is priced through mileage
and petrol price, the non-bike choices through metro/rapido fares; all
scaled by the workday fraction. -/
def transport_daily_costs (cfg : Config) : Fin 5 → ℚ :=
  let t := cfg.transport
  let km_work : Fin 5 → ℚ := ![t.office_oneway_km * 2, 0, 0, 0, 0]
  let km_gym_transport := t.gym_oneway_km * 2
  let bike_km : Fin 5 → ℚ := fun j => (km_work j + km_gym_transport) * p_workday cfg
  let fuel_cost : Fin 5 → ℚ := fun j => bike_km j / t.bike_kmpl * t.petrol_price_rs_per_l
  let nonfuel_cost : Fin 5 → ℚ := fun j =>
    ![0, 0, t.metro_one_way_rs, t.rare_rapido_rs, t.metro_one_way_rs * 2] j * p_workday cfg
  fun j => fuel_cost j + nonfuel_cost j

/-- `expected_mean` (line 80): probability-weighted sum of costs. -/
def transport_expected_mean (cfg : Config) : ℚ :=
  ∑ j : Fin 5, transport_probs cfg j * transport_daily_costs cfg j

/-- `expected_variance` (line 81): probability-weighted sum of squared
deviations from the mean. -/
def transport_expected_variance (cfg : Config) : ℚ :=
  ∑ j : Fin 5, transport_probs cfg j *
    (transport_daily_costs cfg j - transport_expected_mean cfg) ^ 2

/-- `expected_std` (line 82): square root of the variance. -/
noncomputable def transport_expected_std (cfg : Config) : ℝ :=
  Real.sqrt (transport_expected_variance cfg)

/-! ## Variable expense sampler (src/simulation/components.py lines 87-117) -/

/-- The mean vector `[transport_mean, means["food"], means["social"]]`
(line 101). -/
def means_vector (cfg : Config) : Fin 3 → ℝ :=
  ![(transport_expected_mean cfg : ℝ),
    (cfg.variable_expenses.means "food" : ℝ),
    (cfg.variable_expenses.means "social" : ℝ)]

/-- The std vector `[transport_std, stds["food"], stds["social"]]`
(line 102). -/
noncomputable def stds_vector (cfg : Config) : Fin 3 → ℝ :=
  ![transport_expected_std cfg,
    (cfg.variable_expenses.stds "food" : ℝ),
    (cfg.variable_expenses.stds "social" : ℝ)]

/-- One entry of the configured correlation matrix (read as a dense 3×3
array, line 103).  The `getD` defaults only give the read a total type: an
ill-shaped matrix (wrong dimensions) makes the numpy broadcast at line 106
raise before sampling, a path outside this embedding, so every concrete
configuration below carries a well-formed 3×3 matrix and no theorem relies
on the padding. -/
def corr_entry (cfg : Config) (i j : Fin 3) : ℚ :=
  ((cfg.variable_expenses.correlation_matrix.getD i []).getD j 0)

/-- `cov_matrix = np.outer(stds, stds) * corr_matrix` (line 106). -/
noncomputable def cov_matrix (cfg : Config) : Fin 3 → Fin 3 → ℝ :=
  fun i j => stds_vector cfg i * stds_vector cfg j * (corr_entry cfg i j : ℝ)

/-- The raw multivariate-normal sample drawn at line 107: numpy's
`multivariate_normal(means, cov, size=n)` returns
`means + z · F` where `z` are the generator's standard-normal variates and
`F` is the linear factor numpy derives from the covariance matrix (a
deterministic function of it, recorded in `GenBehavior.mvnFactor`).
Trial `i` consumes the three variates at positions `pos + 3i .. pos + 3i + 2`. -/
noncomputable def mvn_sample (cfg : Config) (gB : GenBehavior) (pos i : ℕ)
    (j : Fin 3) : ℝ :=
  means_vector cfg j +
    ∑ k : Fin 3, gB.mvnFactor (cov_matrix cfg) k j * gB.normal (pos + 3 * i + k)

/-- `simulate_daily_variable_expenses`: draws `mc_trials` correlated
samples, clips negatives to zero (line 110), multiplies the food and social
columns by the month's seasonality multipliers (lines 113-115) and returns
the three-column DataFrame (line 117). -/
noncomputable def simulate_daily_variable_expenses (cfg : Config)
    (gB : GenBehavior) (month pos : ℕ) : Table × ℕ :=
  let n := cfg.simulation.mc_trials
  let seasonality := get_seasonality_multipliers month
  let clipped : ℕ → Fin 3 → ℝ := fun i j => max 0 (mvn_sample cfg gB pos i j)
  (
    [("transport", List.ofFn (fun i : Fin n => clipped i 0)),
     ("food", List.ofFn (fun i : Fin n =>
        clipped i 1 * (dictGet seasonality "food" 1 : ℝ))),
     ("social", List.ofFn (fun i : Fin n =>
        clipped i 2 * (dictGet seasonality "social" 1 : ℝ)))],
    pos + 3 * n)

/-! ## Periodic expense aggregator (src/simulation/components.py lines 120-228) -/

/-- `subscriptions_monthly` (lines 132-141). -/
def subscriptions_monthly (c : PeriodicExpensesConfig) : ℚ :=
  c.subscriptions.internet_monthly
    + (c.subscriptions.mobile_90_days / 3)
    + c.subscriptions.google_one_monthly
    + c.subscriptions.spotify_monthly
    + c.subscriptions.news_monthly
    + c.subscriptions.other_apps_monthly
    + (c.subscriptions.cloud_backup_yearly / 12)
    + (c.subscriptions.antivirus_yearly / 12)

/-- `household_monthly` (lines 142-151). -/
def household_monthly (c : PeriodicExpensesConfig) : ℚ :=
  c.household.rent_contribution_monthly
    + c.household.society_maintenance_monthly
    + c.household.groceries_monthly
    + c.household.utilities_monthly
    + c.household.emergency_repair_fund_monthly
    + c.household.appliance_replacement_fund_monthly
    + c.household.wfh_equipment_fund_monthly
    + (c.household.seasonal_clothing_yearly / 12)

/-- `family_support_monthly` (lines 152-157). -/
def family_support_monthly (c : PeriodicExpensesConfig) : ℚ :=
  c.family_support.child_elder_care_monthly
    + c.family_support.caregiver_wages_monthly
    + c.family_support.school_tuition_monthly
    + c.family_support.education_fund_monthly

/-- `medical_monthly` (lines 158-166). -/
def medical_monthly (c : PeriodicExpensesConfig) : ℚ :=
  c.medical.consumables_monthly
    + c.medical.long_term_meds_monthly
    + (c.medical.specialist_consultations_yearly / 12)
    + (c.medical.dental_procedures_yearly / 12)
    + (c.medical.optical_costs_yearly / 12)
    + (c.medical.emergency_buffer_yearly / 12)
    + (c.medical.health_checkup_yearly / 12)

/-- `insurance_loans_monthly` (lines 167-172). -/
def insurance_loans_monthly (c : PeriodicExpensesConfig) : ℚ :=
  c.insurance_and_loans.loan_emi_monthly
    + c.insurance_and_loans.credit_card_payment_monthly
    + (c.insurance_and_loans.life_insurance_yearly / 12)
    + (c.insurance_and_loans.hospitalization_copay_yearly / 12)

/-- `professional_financial_monthly` (lines 173-181). -/
def professional_financial_monthly (c : PeriodicExpensesConfig) : ℚ :=
  (c.professional_and_financial.income_tax_provision_yearly / 12)
    + (c.professional_and_financial.bank_charges_yearly / 12)
    + (c.professional_and_financial.investment_platform_fees_yearly / 12)
    + (c.professional_and_financial.advisory_fees_yearly / 12)
    + (c.professional_and_financial.legal_services_yearly / 12)
    + (c.professional_and_financial.professional_license_yearly / 12)
    + (c.professional_and_financial.tax_filing_assistance_yearly / 12)

/-- `misc_monthly` (lines 182-187). -/
def misc_monthly (c : PeriodicExpensesConfig) : ℚ :=
  c.miscellaneous.donations_monthly
    + c.miscellaneous.pet_care_monthly
    + c.miscellaneous.inflation_buffer_monthly
    + (c.miscellaneous.gifts_and_occasions_yearly / 12)

/-- The `daily_averages` dictionary (lines 190-199): the eight deterministic
daily-rate scalars, keyed by column name, in insertion order. -/
def daily_averages (cfg : Config) : List (String × ℚ) :=
  let c := cfg.periodic_expenses
  let days_in_month := cfg.time.days_in_month
  [("memberships", c.memberships.gym_yearly / (1461/4)),
   ("subscriptions", subscriptions_monthly c / days_in_month),
   ("household", household_monthly c / days_in_month),
   ("family_support", family_support_monthly c / days_in_month),
   ("medical", medical_monthly c / days_in_month),
   ("insurance_and_loans", insurance_loans_monthly c / days_in_month),
   ("professional_and_financial", professional_financial_monthly c / days_in_month),
   ("miscellaneous", misc_monthly c / days_in_month)]

/-- The lognormal location parameter `mu` of the bike-maintenance model
(lines 206-208): `ln(bike_maintenance_mean_monthly) − σ²/2`, computed with
no guard on the mean's sign. -/
noncomputable def lognorm_mu (pf : ProfessionalAndFinancialConfig) : ℝ :=
  Real.log (pf.bike_maintenance_mean_monthly : ℝ) -
    ((pf.bike_maintenance_sigma : ℝ) ^ 2 / 2)

/-- scipy's `lognorm.rvs(s=s, scale=scale, random_state=rng)` draw: a
lognormal variate with shape `s` and scale `scale` is
`scale · exp(s · Z)` for a standard-normal variate `Z` of the generator. -/
noncomputable def lognorm_rvs (s scale z : ℝ) : ℝ := scale * Real.exp (s * z)

/-- The Bernoulli probability of a cricket outing,
`cricket_days_per_month / days_in_month` (line 219). -/
def p_cricket (cfg : Config) : ℚ :=
  cfg.periodic_expenses.hobbies.cricket_days_per_month / cfg.time.days_in_month

/-- One entry of the hobbies column (lines 220-226): `u_event` is the
trial's `rng.random()` variate, `u_cost` its `rng.uniform` variate in
`[0,1)` (numpy's `uniform(low, high)` returns `low + (high−low)·u`);
the cost is drawn only when the Bernoulli event `u_event < p_cricket`
occurs, and is zero otherwise. -/
def hobbies_entry (cfg : Config) (u_event u_cost : ℚ) : ℚ :=
  if u_event < p_cricket cfg then
    cfg.periodic_expenses.hobbies.cricket_cost_min +
      (cfg.periodic_expenses.hobbies.cricket_cost_max -
        cfg.periodic_expenses.hobbies.cricket_cost_min) * u_cost
  else 0

/-- `simulate_periodic_expenses`: broadcasts the eight deterministic daily
averages across all trials (line 200), adds the per-trial lognormal bike
maintenance (divided by `days_in_month`) into the
`professional_and_financial` column (lines 204-215), and appends the
event-based hobbies column (lines 217-226).  The `month` argument is unused,
as in the code.  Trial `i` consumes the standard-normal variate at
`pos + i`, the `rng.random` variate at `pos + n + i` and the `rng.uniform`
variate at `pos + 2n + i`. -/
noncomputable def simulate_periodic_expenses (cfg : Config) (gB : GenBehavior)
    (month pos : ℕ) : Table × ℕ :=
  let n := cfg.simulation.mc_trials
  let days_in_month := cfg.time.days_in_month
  let pf := cfg.periodic_expenses.professional_and_financial
  let monthly_maintenance : ℕ → ℝ := fun i =>
    lognorm_rvs (pf.bike_maintenance_sigma : ℝ) (Real.exp (lognorm_mu pf))
      (gB.normal (pos + i))
  let base : String → ℝ := fun k => (dictGet (daily_averages cfg) k 0 : ℝ)
  (
    [("memberships", List.ofFn (fun _ : Fin n => base "memberships")),
     ("subscriptions", List.ofFn (fun _ : Fin n => base "subscriptions")),
     ("household", List.ofFn (fun _ : Fin n => base "household")),
     ("family_support", List.ofFn (fun _ : Fin n => base "family_support")),
     ("medical", List.ofFn (fun _ : Fin n => base "medical")),
     ("insurance_and_loans", List.ofFn (fun _ : Fin n => base "insurance_and_loans")),
     ("professional_and_financial", List.ofFn (fun i : Fin n =>
        base "professional_and_financial" +
          monthly_maintenance i / (days_in_month : ℝ))),
     ("miscellaneous", List.ofFn (fun _ : Fin n => base "miscellaneous")),
     ("hobbies", List.ofFn (fun i : Fin n =>
        ((hobbies_entry cfg (gB.unif (pos + n + i)) (gB.unif (pos + 2 * n + i)) : ℚ) : ℝ)))],
    pos + 3 * n)

/-! ## Simulation orchestrator (src/model.py) -/

/-- `ExpenseModel`: the configuration and the registry of expense
components.  The Python registry is a string-keyed `dict` populated by
`register`; a `dict` preserves insertion order, and assigning to an existing
key replaces the value while keeping the key's original position, which is
exactly how `register` below treats a duplicate component name. -/
structure ExpenseModel where
  config : Config
  expense_functions : List (String × Component) := []

/-- `ExpenseModel.register` (src/model.py lines 19-26): stores the
component under its function name, silently replacing any component already
registered under that name. -/
def ExpenseModel.register (m : ExpenseModel) (name : String) (f : Component) :
    ExpenseModel :=
  if (m.expense_functions.find? (fun p => p.1 = name)).isSome then
    { m with expense_functions :=
        m.expense_functions.map (fun p => if p.1 = name then (name, f) else p) }
  else
    { m with expense_functions := m.expense_functions ++ [(name, f)] }

/-- Invoke the registered components in registration order, threading the
shared generator's consumed position through them, and concatenate their
DataFrames column-wise (`pd.concat(axis=1)`, src/model.py lines 34-38). -/
def runComponents (cfg : Config) (gB : GenBehavior) (month : ℕ) :
    ℕ → List (String × Component) → Table
  | _, [] => []
  | pos, f :: rest =>
      let r := f.2 cfg gB month pos
      r.1 ++ runComponents cfg gB month r.2 rest

/-- `ExpenseModel.run_simulation` (src/model.py lines 28-38): raises
`ValueError` when the registry is empty, otherwise returns the horizontal
concatenation of every component's output.  No other check is performed
before concatenation. -/
def ExpenseModel.run_simulation (m : ExpenseModel) (gB : GenBehavior)
    (month : ℕ) : Except String Table :=
  if m.expense_functions.isEmpty then
    Except.error "No expense functions have been registered."
  else
    Except.ok (runComponents m.config gB month 0 m.expense_functions)

/-- A model built by registering a list of components in order on a fresh
`ExpenseModel` (as `main.py` does with the two samplers). -/
def buildModel (cfg : Config) (fs : List (String × Component)) : ExpenseModel :=
  fs.foldl (fun m p => m.register p.1 p.2) { config := cfg }

/-- The per-column row counts of a table (`len(df)` per column). -/
def column_lengths (t : Table) : List ℕ := t.map (fun c => c.2.length)

/-! ## Concrete instances used by witnesses and counterexamples -/

/-- A well-formed `variable_expenses` block: all means/stds zero and the
identity 3×3 correlation matrix, so the covariance at line 106 is a genuine
(all-zero, positive-semidefinite) 3×3 matrix and the real sampler runs on
it without error. -/
def zeroVarExp : VariableExpensesConfig :=
  { means := fun _ => 0, stds := fun _ => 0,
    correlation_matrix := [[1, 0, 0], [0, 1, 0], [0, 0, 1]] }

/-- A generator behaviour whose variates are all zero and whose
multivariate-normal factor is the zero matrix (one possible behaviour of
the seeded generator, used to instantiate universally quantified inputs). -/
def g0 : GenBehavior :=
  { normal := fun _ => 0, unif := fun _ => 0, mvnFactor := fun _ _ _ => 0 }

/-- A transport configuration whose commute choices all cost nothing
(no kilometres, zero fares). -/
def zeroCostTransport : TransportConfig :=
  { bike_days_per_month := 0, hitch_days_per_month := 0,
    hitch_two_way_frac := 0, rare_hitch_rapido_prob := 0,
    office_oneway_km := 0, gym_oneway_km := 0, bike_kmpl := 45,
    petrol_price_rs_per_l := 219/2, metro_one_way_rs := 0, rare_rapido_rs := 0 }

/-- A one-trial configuration whose food and social means are 100, whose
transport model is free and whose correlation matrix is the identity (C1's
counterexample input).  All stds are 0, so the covariance at line 106 is
the zero 3×3 matrix — positive-semidefinite, and numpy's factor of it is
the zero matrix, exactly `g0.mvnFactor`: the real sampler returns the mean
vector `[0, 100, 100]` deterministically at this input. -/
def cfgX1 : Config :=
  { simulation := { mc_trials := 1, random_seed := 42 },
    time := { days_in_month := 30, workdays_per_month := 22 },
    transport := zeroCostTransport,
    variable_expenses :=
      { means := fun _ => 100, stds := fun _ => 0,
        correlation_matrix := [[1, 0, 0], [0, 1, 0], [0, 0, 1]] } }

/-- A two-trial configuration (C2's counterexample input). -/
def cfgX2 : Config :=
  { simulation := { mc_trials := 2, random_seed := 42 },
    variable_expenses := zeroVarExp }

/-- A component that returns a one-row, one-column table regardless of the
configured trial count. -/
def badComponent : Component := fun _ _ _ pos => ([("c", [0])], pos)

/-- A configuration whose four explicit commute-choice probabilities sum to
11/10 > 1, so the derived metro probability is −1/10 (C3's failing input):
18 bike days and 15 all-two-way hitch days in a 30-day month, plus a rare
probability of 1/5.  The variable-expense block is `zeroVarExp` (identity
correlation, zero stds), and the transport variance here is positive
(≈ 1315, all costs positive and genuinely probability-weighted), so in the
real program the covariance at line 106 is a positive-semidefinite diagonal
matrix and the sampler runs to completion — no error interrupts the run. -/
def cfgX3 : Config :=
  { simulation := { mc_trials := 1, random_seed := 42 },
    time := { days_in_month := 30, workdays_per_month := 22 },
    transport :=
      { bike_days_per_month := 18, hitch_days_per_month := 15,
        hitch_two_way_frac := 1, rare_hitch_rapido_prob := 1/5 },
    variable_expenses := zeroVarExp }

/-- A configuration with all five commute probabilities non-negative and
all per-choice costs non-negative (C5's witness input: default transport
parameters in a 30-day month). -/
def cfgW5 : Config :=
  { time := { days_in_month := 30, workdays_per_month := 22 },
    variable_expenses := zeroVarExp }

/-- A configuration whose commute probabilities sum to exactly 1 and whose
per-choice costs are all non-negative, yet whose probability-weighted mean
is negative (C5's counterexample input): no bike or hitch days, a rare
probability of 10 (the schema does not bound it by 1), a 100-rupee metro
fare and a free rapido; the one-way-non-combo probability derives to −10. -/
def cfgX5 : Config :=
  { time := { days_in_month := 30, workdays_per_month := 22 },
    transport :=
      { bike_days_per_month := 0, hitch_days_per_month := 0,
        hitch_two_way_frac := 0, rare_hitch_rapido_prob := 10,
        office_oneway_km := 0, gym_oneway_km := 0,
        metro_one_way_rs := 100, rare_rapido_rs := 0 },
    variable_expenses := zeroVarExp }

/-- The default `ProfessionalAndFinancialConfig` (every pydantic default,
in particular `bike_maintenance_mean_monthly = 0.0`). -/
def defaultPF : ProfessionalAndFinancialConfig := {}

/-- A 30-day-month configuration with the default hobbies block
(cricket cost range [300, 500], 2 cricket days; C7's witness input). -/
def cfgW7 : Config :=
  { time := { days_in_month := 30, workdays_per_month := 22 },
    variable_expenses := zeroVarExp }

/-- A 30-day-month configuration whose cricket cost range is [0, 0]
(C7's counterexample input: `cricket_cost_min ≤ cricket_cost_max` holds,
but a cricket outing costs zero). -/
def cfgX7 : Config :=
  { time := { days_in_month := 30, workdays_per_month := 22 },
    periodic_expenses :=
      { hobbies := { cricket_days_per_month := 2,
                     cricket_cost_min := 0, cricket_cost_max := 0 } },
    variable_expenses := zeroVarExp }

/-! ## Helper lemmas -/

/-- A `dictGet` result is non-negative when every stored value and the
default are. -/
theorem dictGet_nonneg {d : List (String × ℚ)} {k : String} {dflt : ℚ}
    (hd : ∀ p ∈ d, 0 ≤ p.2) (h0 : 0 ≤ dflt) : 0 ≤ dictGet d k dflt := by
  unfold dictGet
  cases hfind : d.find? (fun p => p.1 = k) with
  | none => exact h0
  | some p => exact hd p (List.mem_of_find?_eq_some hfind)

/-- Every seasonality multiplier the code can hand out is non-negative,
whatever the month. -/
theorem seasonality_multiplier_nonneg (month : ℕ) (k : String) :
    0 ≤ dictGet (get_seasonality_multipliers month) k 1 := by
  refine dictGet_nonneg ?_ (by norm_num)
  unfold get_seasonality_multipliers
  split <;> simp +decide [dictSet] <;> norm_num

/-- Under the precondition `bike_maintenance_mean_monthly > 0`, the
lognormal scale `exp(μ)` with `μ = ln(mean) − σ²/2` equals
`mean · exp(−σ²/2)`: the location parameter calibrates the distribution's
mean to the configured mean. -/
theorem exp_lognorm_mu (pf : ProfessionalAndFinancialConfig)
    (h : 0 < pf.bike_maintenance_mean_monthly) :
    Real.exp (lognorm_mu pf) =
      (pf.bike_maintenance_mean_monthly : ℝ) *
        Real.exp (-((pf.bike_maintenance_sigma : ℝ) ^ 2 / 2)) := by
  have h0 : (0:ℝ) < (pf.bike_maintenance_mean_monthly : ℝ) := by exact_mod_cast h
  rw [lognorm_mu, Real.exp_sub, Real.exp_log h0, Real.exp_neg]
  ring

/-! ## Claim C1 — reproducibility of the run and of each sampler -/

/-- C1 (amended): with the same seed — hence the same generator behaviour,
since the numpy generator is a deterministic function of its seed — the
same registration order, the same trial count, and additionally the same
current calendar month, the orchestrator's run and each sampler produce
identical output tables.  In this functional embedding every random draw is
determined by the `GenBehavior`, so determinism with all inputs fixed is
reflexivity; the month must be among the fixed inputs (see the
counterexample). -/
theorem run_simulation_deterministic_same_month (cfg : Config)
    (fs : List (String × Component)) (gB : GenBehavior) (month : ℕ) :
    (buildModel cfg fs).run_simulation gB month =
      (buildModel cfg fs).run_simulation gB month ∧
    (∀ pos, simulate_daily_variable_expenses cfg gB month pos =
      simulate_daily_variable_expenses cfg gB month pos) ∧
    (∀ pos, simulate_periodic_expenses cfg gB month pos =
      simulate_periodic_expenses cfg gB month pos) :=
  ⟨rfl, fun _ => rfl, fun _ => rfl⟩

/-- C1 counterexample: the claim as stated omits the calendar month.  With
the same configuration `cfgX1`, the same generator behaviour `g0` (same
seed) and the same single registered component, an execution during October
(month 10, a festival month with social multiplier 1.3) and one during
January (month 1) return different tables: the social column is scaled by
1.3 in one and 1.0 in the other, so output is not bit-for-bit identical. -/
theorem run_simulation_month_dependent :
    (buildModel cfgX1 [("simulate_daily_variable_expenses",
        simulate_daily_variable_expenses)]).run_simulation g0 10 ≠
      (buildModel cfgX1 [("simulate_daily_variable_expenses",
        simulate_daily_variable_expenses)]).run_simulation g0 1 := by
  have hmean : transport_expected_mean cfgX1 = 0 := by
    norm_num [transport_expected_mean, transport_probs, transport_daily_costs, p_workday,
      cfgX1, zeroCostTransport, Fin.sum_univ_five]
  have hn : cfgX1.simulation.mc_trials = 1 := rfl
  have hfood : cfgX1.variable_expenses.means "food" = 100 := rfl
  have hsocial : cfgX1.variable_expenses.means "social" = 100 := rfl
  have hsamp : ∀ month, (simulate_daily_variable_expenses cfgX1 g0 month 0).1 =
      [("transport", [(0:ℝ)]),
       ("food", [(100:ℝ) * (dictGet (get_seasonality_multipliers month) "food" 1 : ℝ)]),
       ("social", [(100:ℝ) * (dictGet (get_seasonality_multipliers month) "social" 1 : ℝ)])] := by
    intro month
    simp [simulate_daily_variable_expenses, mvn_sample, means_vector, g0, hn, hmean,
      hfood, hsocial, List.ofFn_succ, List.ofFn_zero]
  have hrun : ∀ month,
      (buildModel cfgX1 [("simulate_daily_variable_expenses",
        simulate_daily_variable_expenses)]).run_simulation g0 month =
      Except.ok ((simulate_daily_variable_expenses cfgX1 g0 month 0).1 ++ []) :=
    fun _ => rfl
  have s10 : dictGet (get_seasonality_multipliers 10) "social" 1 = 13/10 := by
    simp +decide [get_seasonality_multipliers, dictSet, dictGet, List.find?]
  have s1 : dictGet (get_seasonality_multipliers 1) "social" 1 = 1 := by
    simp +decide [get_seasonality_multipliers, dictGet, List.find?]
  intro h
  rw [hrun 10, hrun 1, hsamp 10, hsamp 1, s10, s1] at h
  simp at h
  norm_num at h

/-! ## Claim C2 — error handling of `run_simulation` -/

/-- C2 (amended): `run_simulation` raises `ValueError` exactly when no
components are registered; when at least one component is registered it
always returns the horizontal concatenation of the components' outputs —
it performs no row-count validation at all. -/
theorem run_simulation_empty_registry_check (m : ExpenseModel)
    (gB : GenBehavior) (month : ℕ) :
    (m.expense_functions = [] →
      m.run_simulation gB month =
        Except.error "No expense functions have been registered.") ∧
    (m.expense_functions ≠ [] →
      m.run_simulation gB month =
        Except.ok (runComponents m.config gB month 0 m.expense_functions)) := by
  unfold ExpenseModel.run_simulation
  constructor
  · intro h
    rw [h]
    rfl
  · intro h
    have he : m.expense_functions.isEmpty = false := by
      simp [List.isEmpty_iff, h]
    rw [he, if_neg Bool.false_ne_true]

/-- C2 counterexample: a registered component that returns a one-row table
under a configured trial count of 2 does not make `run_simulation` raise —
the mismatched table is returned inside `Except.ok`, refuting the claim
that a row-count mismatch raises an error. -/
theorem run_simulation_row_count_unchecked :
    (buildModel cfgX2 [("bad_component", badComponent)]).run_simulation g0 1 =
      Except.ok [("c", [(0:ℝ)])] ∧
    column_lengths [("c", [(0:ℝ)])] ≠ [cfgX2.simulation.mc_trials] := by
  constructor
  · rfl
  · simp +decide [column_lengths, cfgX2]

/-! ## Claim C3 — negative derived metro probability is not rejected -/

/-- C3: at `cfgX3` the four explicit commute-choice probabilities sum to
11/10 > 1, the derived metro probability is −1/10, and the engine still
proceeds: the variable-expense sampler runs to completion and the
orchestrator returns an ordinary `Except.ok` table, with no validation
anywhere.  This contradicts the spec's stated policy of detecting and
rejecting such configurations before sampling (the code is the defect the
spec itself flags). -/
theorem negative_metro_probability_not_rejected :
    1 < transport_probs cfgX3 0 + transport_probs cfgX3 1 + transport_probs cfgX3 2 +
      transport_probs cfgX3 3 ∧
    transport_probs cfgX3 4 = -(1/10) ∧
    (∃ t, (buildModel cfgX3 [("simulate_daily_variable_expenses",
      simulate_daily_variable_expenses)]).run_simulation g0 1 = Except.ok t) := by
  refine ⟨?_, ?_, ⟨_, rfl⟩⟩ <;> norm_num [transport_probs, cfgX3, p_workday]

/-! ## Claim C4 — shape and non-negativity of the variable-expense table -/

/-- C4: for every configuration (and any generator behaviour, month and
stream position) the variable-expense sampler's table has exactly the
columns `transport`, `food`, `social` in that order, every column has
exactly `mc_trials` rows, and every entry is ≥ 0 (negatives are clipped at
line 110 and the seasonality multipliers are non-negative). -/
theorem variable_expenses_shape_and_nonneg (cfg : Config) (gB : GenBehavior)
    (month pos : ℕ) :
    ((simulate_daily_variable_expenses cfg gB month pos).1).map Prod.fst =
      ["transport", "food", "social"] ∧
    column_lengths (simulate_daily_variable_expenses cfg gB month pos).1 =
      [cfg.simulation.mc_trials, cfg.simulation.mc_trials, cfg.simulation.mc_trials] ∧
    (∀ c ∈ (simulate_daily_variable_expenses cfg gB month pos).1, ∀ x ∈ c.2, 0 ≤ x) := by
  refine ⟨rfl, by simp [column_lengths, simulate_daily_variable_expenses], ?_⟩
  intro c hc x hx
  simp only [simulate_daily_variable_expenses, List.mem_cons, List.not_mem_nil,
    or_false] at hc
  rcases hc with h | h | h <;> subst h <;>
    simp only [List.mem_ofFn] at hx <;> obtain ⟨i, rfl⟩ := hx
  · exact le_max_left _ _
  · exact mul_nonneg (le_max_left _ _)
      (by exact_mod_cast seasonality_multiplier_nonneg month "food")
  · exact mul_nonneg (le_max_left _ _)
      (by exact_mod_cast seasonality_multiplier_nonneg month "social")

/-! ## Claim C5 — sign of the transport analytical moments -/

/-- C5 (amended): the five derived commute-choice probabilities always sum
to exactly 1; when additionally every one of them is non-negative (a
genuine probability vector — the original claim's hypothesis admits
negative derived entries) and every per-choice daily cost is ≥ 0, the
analytical mean, variance and standard deviation are all ≥ 0. -/
theorem transport_stats_nonneg (cfg : Config)
    (hp : ∀ j, 0 ≤ transport_probs cfg j)
    (hc : ∀ j, 0 ≤ transport_daily_costs cfg j) :
    (∑ j : Fin 5, transport_probs cfg j) = 1 ∧
    0 ≤ transport_expected_mean cfg ∧
    0 ≤ transport_expected_variance cfg ∧
    0 ≤ transport_expected_std cfg := by
  refine ⟨?_, Finset.sum_nonneg fun j _ => mul_nonneg (hp j) (hc j),
    Finset.sum_nonneg fun j _ => mul_nonneg (hp j) (sq_nonneg _),
    Real.sqrt_nonneg _⟩
  simp [transport_probs, Fin.sum_univ_five]

/-- C5 witness: the default transport parameters in a 30-day month satisfy
both hypotheses, and the conclusion holds there. -/
theorem transport_stats_nonneg_witness :
    (∀ j, 0 ≤ transport_probs cfgW5 j) ∧
    (∀ j, 0 ≤ transport_daily_costs cfgW5 j) ∧
    ((∑ j : Fin 5, transport_probs cfgW5 j) = 1 ∧
      0 ≤ transport_expected_mean cfgW5 ∧
      0 ≤ transport_expected_variance cfgW5 ∧
      0 ≤ transport_expected_std cfgW5) :=
  ⟨fun j => by fin_cases j <;> norm_num [transport_probs, cfgW5, p_workday],
   fun j => by fin_cases j <;> norm_num [transport_daily_costs, cfgW5, p_workday],
   transport_stats_nonneg cfgW5
     (fun j => by fin_cases j <;> norm_num [transport_probs, cfgW5, p_workday])
     (fun j => by fin_cases j <;> norm_num [transport_daily_costs, cfgW5, p_workday])⟩

/-- C5 counterexample: at `cfgX5` every per-choice cost is ≥ 0 and the five
derived probabilities sum to exactly 1 (they always do), yet the returned
mean is negative — the claim's hypotheses do not force a non-negative mean
because a derived "probability" can be negative. -/
theorem transport_mean_negative_cex :
    (∀ j, 0 ≤ transport_daily_costs cfgX5 j) ∧
    (∑ j : Fin 5, transport_probs cfgX5 j) = 1 ∧
    transport_expected_mean cfgX5 < 0 := by
  refine ⟨?_, ?_, ?_⟩
  · intro j
    fin_cases j <;> norm_num [transport_daily_costs, cfgX5, p_workday]
  · simp [transport_probs, Fin.sum_univ_five]
  · norm_num [transport_expected_mean, transport_probs, transport_daily_costs, p_workday,
      cfgX5, Fin.sum_univ_five]

/-! ## Claim C6 — the lognormal bike-maintenance overlay -/

/-- C6: the `professional_and_financial` column is, entry by entry, the
deterministic daily average plus one lognormal draw per trial — shape
`σ = bike_maintenance_sigma`, scale `exp(μ)` with
`μ = ln(bike_maintenance_mean_monthly) − σ²/2` — divided by
`days_in_month`; and (the point of that `μ`) whenever the configured mean
is positive, `exp(μ) = mean · exp(−σ²/2)`, so the distribution's mean is
calibrated to the configured mean. -/
theorem bike_maintenance_lognormal_spec (cfg : Config) (gB : GenBehavior)
    (month pos : ℕ) :
    getCol (simulate_periodic_expenses cfg gB month pos).1 "professional_and_financial" =
      List.ofFn (fun i : Fin cfg.simulation.mc_trials =>
        (dictGet (daily_averages cfg) "professional_and_financial" 0 : ℝ) +
          lognorm_rvs
            (cfg.periodic_expenses.professional_and_financial.bike_maintenance_sigma : ℝ)
            (Real.exp (lognorm_mu cfg.periodic_expenses.professional_and_financial))
            (gB.normal (pos + i)) / (cfg.time.days_in_month : ℝ)) ∧
    lognorm_mu cfg.periodic_expenses.professional_and_financial =
      Real.log (cfg.periodic_expenses.professional_and_financial.bike_maintenance_mean_monthly : ℝ) -
        ((cfg.periodic_expenses.professional_and_financial.bike_maintenance_sigma : ℝ) ^ 2 / 2) ∧
    (0 < cfg.periodic_expenses.professional_and_financial.bike_maintenance_mean_monthly →
      Real.exp (lognorm_mu cfg.periodic_expenses.professional_and_financial) =
        (cfg.periodic_expenses.professional_and_financial.bike_maintenance_mean_monthly : ℝ) *
          Real.exp (-((cfg.periodic_expenses.professional_and_financial.bike_maintenance_sigma : ℝ) ^ 2 / 2))) := by
  refine ⟨?_, rfl, exp_lognorm_mu _⟩
  simp +decide [simulate_periodic_expenses, getCol, List.find?]

/-! ## Claim C7 — the event-based hobbies column -/

/-- C7 (amended): for `cricket_cost_min ≤ cricket_cost_max` and a cost
variate in [0,1), every hobbies entry is either exactly 0 or within
[`cricket_cost_min`, `cricket_cost_max`], and the aggregator's hobbies
column consists exactly of these entries; when additionally
`cricket_cost_min > 0` (the original claim fails when the minimum is 0,
since an occurring event can then cost exactly 0), an entry is non-zero
exactly when its trial's Bernoulli event
`u_event < cricket_days_per_month/days_in_month` occurs. -/
theorem hobbies_column_spec (cfg : Config) (u_event u_cost : ℚ)
    (hmm : cfg.periodic_expenses.hobbies.cricket_cost_min ≤
      cfg.periodic_expenses.hobbies.cricket_cost_max)
    (hu : 0 ≤ u_cost ∧ u_cost < 1) :
    (hobbies_entry cfg u_event u_cost = 0 ∨
      (cfg.periodic_expenses.hobbies.cricket_cost_min ≤ hobbies_entry cfg u_event u_cost ∧
        hobbies_entry cfg u_event u_cost ≤ cfg.periodic_expenses.hobbies.cricket_cost_max)) ∧
    (0 < cfg.periodic_expenses.hobbies.cricket_cost_min →
      (hobbies_entry cfg u_event u_cost ≠ 0 ↔ u_event < p_cricket cfg)) ∧
    (∀ gB : GenBehavior, ∀ month pos : ℕ,
      getCol (simulate_periodic_expenses cfg gB month pos).1 "hobbies" =
        List.ofFn (fun i : Fin cfg.simulation.mc_trials =>
          ((hobbies_entry cfg (gB.unif (pos + cfg.simulation.mc_trials + i))
            (gB.unif (pos + 2 * cfg.simulation.mc_trials + i)) : ℚ) : ℝ))) := by
  refine ⟨?_, ?_, fun gB month pos => by
    simp +decide [simulate_periodic_expenses, getCol, List.find?]⟩
  · unfold hobbies_entry
    split
    case isTrue h =>
      exact Or.inr ⟨by nlinarith [hu.1, hu.2], by nlinarith [hu.1, hu.2]⟩
    case isFalse h => exact Or.inl rfl
  · intro hpos
    unfold hobbies_entry
    split
    case isTrue h =>
      simp only [h, iff_true]
      intro h0
      nlinarith [hu.1, hu.2, hpos, hmm]
    case isFalse h => simp [h]

/-- C7 witness: the default hobbies block (costs in [300, 500]) with both
variates 1/2 satisfies the hypotheses, and the conclusion holds there. -/
theorem hobbies_column_spec_witness :
    cfgW7.periodic_expenses.hobbies.cricket_cost_min ≤
      cfgW7.periodic_expenses.hobbies.cricket_cost_max ∧
    ((0:ℚ) ≤ 1/2 ∧ (1/2:ℚ) < 1) ∧
    ((hobbies_entry cfgW7 (1/2) (1/2) = 0 ∨
      (cfgW7.periodic_expenses.hobbies.cricket_cost_min ≤ hobbies_entry cfgW7 (1/2) (1/2) ∧
        hobbies_entry cfgW7 (1/2) (1/2) ≤ cfgW7.periodic_expenses.hobbies.cricket_cost_max)) ∧
    (0 < cfgW7.periodic_expenses.hobbies.cricket_cost_min →
      (hobbies_entry cfgW7 (1/2) (1/2) ≠ 0 ↔ (1/2:ℚ) < p_cricket cfgW7)) ∧
    (∀ gB : GenBehavior, ∀ month pos : ℕ,
      getCol (simulate_periodic_expenses cfgW7 gB month pos).1 "hobbies" =
        List.ofFn (fun i : Fin cfgW7.simulation.mc_trials =>
          ((hobbies_entry cfgW7 (gB.unif (pos + cfgW7.simulation.mc_trials + i))
            (gB.unif (pos + 2 * cfgW7.simulation.mc_trials + i)) : ℚ) : ℝ)))) :=
  ⟨by norm_num [cfgW7], by norm_num,
   hobbies_column_spec cfgW7 (1/2) (1/2) (by norm_num [cfgW7]) (by norm_num)⟩

/-- C7 counterexample: at `cfgX7` the cost range is [0, 0], so
`cricket_cost_min ≤ cricket_cost_max` holds, the Bernoulli event of a trial
with `u_event = 0` occurs (its probability 1/15 is positive), yet the
entry is 0 — an entry is not non-zero exactly when the event occurs. -/
theorem hobbies_nonzero_iff_cex :
    cfgX7.periodic_expenses.hobbies.cricket_cost_min ≤
      cfgX7.periodic_expenses.hobbies.cricket_cost_max ∧
    (0:ℚ) < p_cricket cfgX7 ∧
    ((0:ℚ) ≤ 0 ∧ (0:ℚ) < 1) ∧
    hobbies_entry cfgX7 0 0 = 0 := by
  refine ⟨by norm_num [cfgX7], ?_, by norm_num, ?_⟩
  · norm_num [p_cricket, cfgX7]
  · have h : (0:ℚ) < p_cricket cfgX7 := by norm_num [p_cricket, cfgX7]
    simp [hobbies_entry, h, cfgX7]

/-! ## Claim C8 — the seasonality rule -/

/-- C8: for every calendar month the multipliers are 1.0 for every category
in the map, except that in the festival months 10 and 11 the social
multiplier is 1.3 and the household multiplier 1.1 (food stays 1.0); the
function consumes nothing but the month, so the result depends only on
it. -/
theorem seasonality_multipliers_by_month (m : ℕ) (h1 : 1 ≤ m) (h2 : m ≤ 12) :
    ((m = 10 ∨ m = 11) →
      get_seasonality_multipliers m =
        [("social", 13/10), ("household", 11/10), ("food", 1)]) ∧
    (¬(m = 10 ∨ m = 11) →
      get_seasonality_multipliers m = [("social", 1), ("household", 1), ("food", 1)]) := by
  constructor <;> intro hm
  · simp [get_seasonality_multipliers, hm, dictSet]
  · simp [get_seasonality_multipliers, hm]

/-- C8 witness: the conclusion instantiated at October. -/
theorem seasonality_multipliers_witness :
    (1:ℕ) ≤ 10 ∧ (10:ℕ) ≤ 12 ∧
    ((((10:ℕ) = 10 ∨ (10:ℕ) = 11) →
      get_seasonality_multipliers 10 =
        [("social", 13/10), ("household", 11/10), ("food", 1)]) ∧
    (¬((10:ℕ) = 10 ∨ (10:ℕ) = 11) →
      get_seasonality_multipliers 10 = [("social", 1), ("household", 1), ("food", 1)])) :=
  ⟨by norm_num, by norm_num, seasonality_multipliers_by_month 10 (by norm_num) (by norm_num)⟩

/-! ## Claim C9 — duplicate registration -/

/-- C9: registering two components under the same function name leaves the
registry holding only the second one (Python dict assignment replaces the
value), and the run invokes just that component, once, with no error. -/
theorem register_duplicate_replaces (cfg : Config) (name : String)
    (f g : Component) (gB : GenBehavior) (month : ℕ) :
    (((buildModel cfg []).register name f).register name g).expense_functions =
      [(name, g)] ∧
    (((buildModel cfg []).register name f).register name g).run_simulation gB month =
      Except.ok ((g cfg gB month 0).1) := by
  have h1 : (buildModel cfg []).register name f =
      { config := cfg, expense_functions := [(name, f)] } := rfl
  have h2 : (((buildModel cfg []).register name f).register name g).expense_functions =
      [(name, g)] := by
    rw [h1]
    unfold ExpenseModel.register
    simp only [List.find?, eq_self_iff_true, decide_True, Option.isSome_some, if_true,
      List.map_cons, List.map_nil, if_pos rfl]
  have h3 : (((buildModel cfg []).register name f).register name g).config = cfg := by
    rw [h1]
    unfold ExpenseModel.register
    split <;> rfl
  refine ⟨h2, ?_⟩
  unfold ExpenseModel.run_simulation
  rw [h2, h3]
  simp only [List.isEmpty_cons, runComponents, List.append_nil]
  rw [if_neg Bool.false_ne_true]

/-! ## Claim C10 — the unguarded logarithm -/

/-- C10: the default `bike_maintenance_mean_monthly` is 0, violating the
precondition `mean > 0` under which the unguarded `ln(mean)` is meaningful;
under that precondition the computation is total and satisfies its
defining property `exp(μ) = mean · exp(−σ²/2)`, while at the default
configuration that property fails (the left side is `exp(ln 0 − 1/2) > 0`,
the right side is 0). -/
theorem bike_maintenance_log_precondition :
    defaultPF.bike_maintenance_mean_monthly = 0 ∧
    ¬ (0 < defaultPF.bike_maintenance_mean_monthly) ∧
    (∀ pf : ProfessionalAndFinancialConfig, 0 < pf.bike_maintenance_mean_monthly →
      Real.exp (lognorm_mu pf) =
        (pf.bike_maintenance_mean_monthly : ℝ) *
          Real.exp (-((pf.bike_maintenance_sigma : ℝ) ^ 2 / 2))) ∧
    Real.exp (lognorm_mu defaultPF) ≠
      (defaultPF.bike_maintenance_mean_monthly : ℝ) *
        Real.exp (-((defaultPF.bike_maintenance_sigma : ℝ) ^ 2 / 2)) := by
  refine ⟨rfl, by norm_num [defaultPF], exp_lognorm_mu, ?_⟩
  have h0 : (defaultPF.bike_maintenance_mean_monthly : ℝ) = 0 := by
    norm_num [defaultPF]
  rw [h0, zero_mul]
  exact Real.exp_ne_zero _

end FinanceSim
